import Mathlib

/-!
Shallow embedding of `pdf2pptx4win` (files `pdf2pptx.py` and `main.py`).

Conventions used throughout:
* Python floats are modelled as exact rationals (`ℚ`); the decimal literals of
  the source are carried over verbatim.
* Python `None` becomes `Option.none`; Python truthiness of an optional number
  is `truthy` below (`None` and `0` are falsy).
* Calls into the external libraries (the PDF rasterizer `fitz`, the PIL image
  library and the `pptx` writer) are modelled as oracles: a `RenderOracle`
  says, for every 0-based page index, whether rasterization returns a raster
  image or throws, and the fallible steps of the two PNG helper functions are
  an oracle record of `Except` results.
* File-system effects (scratch-directory creation and removal, intermediate
  image writes, the final presentation save) are recorded in an event trace so
  that resource-lifetime and "no output produced" properties are statable.
* An uncaught Python exception is the `raised` constructor of the result
  types; `sys.exit(code)` is the `exitedWith code` outcome of `runMain`.
-/

namespace Pdf2Pptx

/-- Python truthiness of an optional rational: `None` and `0` are falsy,
every other number is truthy. -/
def truthy : Option ℚ → Bool
  | none => false
  | some x => x ≠ 0

/-- The `ratios` dictionary of `get_slide_dimensions` (pdf2pptx.py lines
26-36): standard aspect ratios `(width, height)` in inches, in source order. -/
def ratios : List (String × (ℚ × ℚ)) :=
  [ ("4:3", (10.0, 7.5))
  , ("16:9", (13.333, 7.5))
  , ("16:10", (13.0, 8.125))
  , ("a4", (11.69, 8.27))
  , ("letter", (11.0, 8.5))
  , ("wide", (13.333, 7.5))
  , ("standard", (10.0, 7.5))
  , ("square", (10.0, 10.0))
  , ("portrait", (7.5, 10.0)) ]

/-- Python `ratios.get(aspect_ratio)`: first binding of the key, if any. -/
def ratiosLookup (k : String) : Option (ℚ × ℚ) :=
  (ratios.find? (fun p => p.1 == k)).map (fun p => p.2)

/-- Model of `get_slide_dimensions` (pdf2pptx.py lines 18-38): the custom pair when the keyword is `"custom"` and
both custom values are truthy, otherwise the table entry for the keyword with
`ratios["4:3"]` as the default of `ratios.get`. -/
def get_slide_dimensions (aspect_ratio : String)
    (custom_width custom_height : Option ℚ) : ℚ × ℚ :=
  if aspect_ratio = "custom" ∧ truthy custom_width ∧ truthy custom_height then
    (custom_width.getD 0, custom_height.getD 0)
  else
    (ratiosLookup aspect_ratio).getD (10.0, 7.5)

/-- The `quality_settings` dictionary of `pdf_to_pptx` (pdf2pptx.py lines
161-166). -/
def quality_settings : List (String × ℤ) :=
  [("low", 150), ("medium", 300), ("high", 600), ("ultra", 1200)]

/-- Membership/lookup in `quality_settings`. -/
def qualityLookup (q : String) : Option ℤ :=
  (quality_settings.find? (fun p => p.1 == q)).map (fun p => p.2)

/-- The DPI resolution of `pdf_to_pptx` (pdf2pptx.py lines 168-169):
`if dpi is None and quality in quality_settings: dpi = quality_settings.get(quality, 600)`.
An explicit DPI is kept unchanged; only a missing DPI is filled from the
quality tier, and stays missing for a quality outside the table. -/
def resolve_dpi (dpi : Option ℤ) (quality : String) : Option ℤ :=
  match dpi with
  | some d => some d
  | none =>
    match qualityLookup quality with
    | some tier => some tier
    | none => none

/-- Python `int()` on a rational: truncation toward zero. -/
def pyTrunc (q : ℚ) : ℤ :=
  if 0 ≤ q then ⌊q⌋ else ⌈q⌉

/-- The per-page resize of `pdf_to_pptx` (pdf2pptx.py lines 203-207):
`target_height = 1024; ratio = target_height / img.height;
new_width = int(img.width * ratio)`, giving the `(new_width, target_height)`
pixel dimensions passed to `img.resize`.  The float arithmetic of the source
is modelled exactly over `ℚ`. -/
def resize_dims (w h : ℕ) : ℤ × ℤ :=
  let target_height : ℤ := 1024
  let ratio : ℚ := (target_height : ℚ) / (h : ℚ)
  (pyTrunc ((w : ℚ) * ratio), target_height)

/-- A raster image produced by the external rasterizer: its pixel
dimensions. -/
structure RasterImage where
  width : ℕ
  height : ℕ
deriving DecidableEq, Repr

/-- Oracle for the external rasterization capability: for every 0-based page
index, either the raster image returned by `page.get_pixmap` or the message of
the exception it throws. -/
def RenderOracle : Type := ℕ → Except String RasterImage

/-- One picture placed on a slide by `slide.shapes.add_picture(path, left,
top, width, height)`. -/
structure Picture where
  imagePath : String
  left : ℚ
  top : ℚ
  width : ℚ
  height : ℚ
deriving DecidableEq, Repr

/-- One slide of the output presentation: the loop body adds exactly one
picture per slide. -/
structure Slide where
  picture : Picture
deriving DecidableEq, Repr

/-- The presentation accumulated by `pdf_to_pptx` and saved at the end. -/
structure ConversionOutput where
  slideWidth : ℚ
  slideHeight : ℚ
  slides : List Slide
deriving DecidableEq, Repr

/-- File-system events performed by a conversion, in order. -/
inductive Event where
  | createTempDir (dir : String)
  | renderPage (idx : ℕ) (dpi : Option ℤ)
  | writeImage (path : String) (dims : ℤ × ℤ)
  | savePresentation (path : String)
  | removeTempDir (dir : String)
deriving DecidableEq, Repr

/-- Result of a `pdf_to_pptx` call: `False` returned for a missing input
file, `True` returned with the saved presentation, or an uncaught exception
propagating out of the function. -/
inductive ConvResult where
  | notFound
  | ok (out : ConversionOutput)
  | raised (msg : String)
deriving DecidableEq, Repr

/-- The intermediate image path (an f-string `slide-i.png` joined under
`temp_dir`) used by the page loop. -/
def slide_path (tempDir : String) (i : ℕ) : String :=
  tempDir ++ "/slide-" ++ toString i ++ ".png"

/-- The page loop of `pdf_to_pptx` (pdf2pptx.py lines 190-220) over pages
`start, start+1, …, start+count-1`: each iteration renders the page (an
exception here is NOT caught and stops the loop), resizes the raster with
`resize_dims`, writes the intermediate PNG into the scratch directory and
appends one slide carrying that image at offset `(0, 0)` with the canvas
width and height.  Returns the slides built, the events performed, and the
message of the uncaught exception if one was thrown. -/
def runPages (render : RenderOracle) (tempDir : String) (w h : ℚ)
    (effDpi : Option ℤ) : ℕ → ℕ → List Slide × List Event × Option String
  | _, 0 => ([], [], none)
  | start, count + 1 =>
    match render start with
    | .error e => ([], [Event.renderPage start effDpi], some e)
    | .ok pix =>
      let path := slide_path tempDir start
      let rest := runPages render tempDir w h effDpi (start + 1) count
      (⟨⟨path, 0, 0, w, h⟩⟩ :: rest.1,
       Event.renderPage start effDpi ::
         Event.writeImage path (resize_dims pix.width pix.height) :: rest.2.1,
       rest.2.2)

/-- Model of `pdf_to_pptx` (pdf2pptx.py lines 129-231).  `fileExists` is the result of
`pdf_path.exists()`; `tempDir` is the fresh scratch directory produced by
`tempfile.TemporaryDirectory()`; `numPages` is `len(pdf_doc)`.  The slide
dimensions come from `get_slide_dimensions`, the effective DPI from
`resolve_dpi`, and the page loop from `runPages`.  The `with` block ensures
the scratch directory is removed both when the body completes (after
`prs.save`) and when an exception propagates out of the body. -/
def pdf_to_pptx (fileExists : Bool) (render : RenderOracle) (tempDir : String)
    (output_path : String) (aspect_ratio : String)
    (custom_width custom_height : Option ℚ) (quality : String)
    (dpi : Option ℤ) (numPages : ℕ) : ConvResult × List Event :=
  if fileExists then
    let wh := get_slide_dimensions aspect_ratio custom_width custom_height
    let effDpi := resolve_dpi dpi quality
    let r := runPages render tempDir wh.1 wh.2 effDpi 0 numPages
    match r.2.2 with
    | some e =>
      (.raised e,
       Event.createTempDir tempDir :: r.2.1 ++ [Event.removeTempDir tempDir])
    | none =>
      (.ok ⟨wh.1, wh.2, r.1⟩,
       Event.createTempDir tempDir :: r.2.1 ++
         [Event.savePresentation output_path, Event.removeTempDir tempDir])
  else (.notFound, [])

/-- Model of `pdf_to_pptx_simple` (pdf2pptx.py lines 233-237): fixed 4:3 aspect, the
caller's DPI, default quality `"high"`. -/
def pdf_to_pptx_simple (fileExists : Bool) (render : RenderOracle)
    (tempDir : String) (output_path : String) (dpi : Option ℤ)
    (numPages : ℕ) : ConvResult × List Event :=
  pdf_to_pptx fileExists render tempDir output_path "4:3" none none "high"
    dpi numPages

/-- Oracle for the fallible external-library steps inside the `try` block of
`convert_pdf_to_png` (pdf2pptx.py lines 56-67): `fitz.open`, the page index
access, `page.get_pixmap`, `pix.save` and `pdf_doc.close`, each either
succeeding or throwing with a message. -/
structure PngSteps where
  openDoc : Except String Unit
  getPage : Except String Unit
  getPixmap : Except String Unit
  savePix : Except String Unit
  closeDoc : Except String Unit

/-- Model of `convert_pdf_to_png` (pdf2pptx.py lines 41-79).  The output path is
computed before the `try` block by pure string formatting; the whole body is
wrapped in `try/except Exception`, so any step's exception is caught and
turned into a log line carrying the 1-based page number and a `None` return.
Returns the function's return value together with the log lines printed. -/
def convert_pdf_to_png (steps : PngSteps) (output_dir : String)
    (page_num : ℕ) : Option String × List String :=
  let output_path := output_dir ++ "/slide-" ++ toString page_num ++ ".png"
  let body : Except String Unit := do
    steps.openDoc
    steps.getPage
    steps.getPixmap
    steps.savePix
    steps.closeDoc
  match body with
  | .ok _ => (some output_path, [])
  | .error e =>
    (none, ["Error converting page " ++ toString (page_num + 1)
      ++ " to PNG: " ++ e])

/-- Oracle for the fallible external-library steps inside the `try` block of
`convert_pdf_to_high_quality_png` (pdf2pptx.py lines 98-123): opening,
indexing and rendering, then either the PIL branch (`Image.frombytes`, the
sharpen filter, `img.save`) or the direct `pix.save`, then `pdf_doc.close`. -/
structure HqPngSteps where
  openDoc : Except String Unit
  getPage : Except String Unit
  getPixmap : Except String Unit
  frombytes : Except String Unit
  sharpen : Except String Unit
  savePil : Except String Unit
  savePix : Except String Unit
  closeDoc : Except String Unit

/-- Model of `convert_pdf_to_high_quality_png` (pdf2pptx.py lines 82-127).  Same
catch-everything shape as `convert_pdf_to_png`, with the PIL enhancement
branch selected by `use_pil_enhancement`. -/
def convert_pdf_to_high_quality_png (steps : HqPngSteps) (output_dir : String)
    (page_num : ℕ) (use_pil_enhancement : Bool) : Option String × List String :=
  let output_path := output_dir ++ "/slide-" ++ toString page_num ++ ".png"
  let body : Except String Unit := do
    steps.openDoc
    steps.getPage
    steps.getPixmap
    if use_pil_enhancement then do
      steps.frombytes
      steps.sharpen
      steps.savePil
    else
      steps.savePix
    steps.closeDoc
  match body with
  | .ok _ => (some output_path, [])
  | .error e =>
    (none, ["Error converting page " ++ toString (page_num + 1)
      ++ " to PNG: " ++ e])

/-- The parsed command-line arguments of `main` (pdf2pptx.py lines 239-306),
after `argparse` has succeeded: an omitted `-o`, `-w`, `-H` or `-d` is
`none`, `--aspect` defaults to `"4:3"`, `--quality` to `"high"`, and the two
flags are booleans. -/
structure Args where
  input_pdf : String
  output : Option String
  aspect : String
  width : Option ℚ
  height : Option ℚ
  quality : String
  dpi : Option ℤ
  simple : Bool
  list_aspects : Bool

/-- How a `main` run ends: a `sys.exit(code)` (also the final
`sys.exit(0 if success else 1)`), or an exception propagating uncaught out of
`main` and aborting the interpreter. -/
inductive MainOutcome where
  | exitedWith (code : ℕ)
  | raised (msg : String)
deriving DecidableEq, Repr

/-- Model of the `Path.with_suffix(".pptx")` call used to derive the default output path
(pdf2pptx.py line 157), modelled for ordinary file names: the part after the
last dot is replaced by `pptx`; a name without a dot gets `.pptx` appended. -/
def with_suffix_pptx (p : String) : String :=
  let cs := p.toList
  let stem := if '.' ∈ cs then ((cs.reverse.dropWhile (· ≠ '.')).drop 1).reverse else cs
  String.mk stem ++ ".pptx"

/-- Model of `main` (pdf2pptx.py lines 239-356) after successful argument parsing.
`fileExistsAt` is the file-system oracle behind `Path.exists()`.  Branch
order follows the source: the `--list-aspects` branch exits 0 first, then the
custom-dimension validation exits 1, then the input-file check exits 1, then
the conversion runs (simple or full mode) and its boolean result becomes the
exit code; an exception from the conversion propagates.  Also returns the
trace of file-system events performed. -/
def runMain (fileExistsAt : String → Bool) (render : RenderOracle)
    (tempDir : String) (numPages : ℕ) (args : Args) :
    MainOutcome × List Event :=
  if args.list_aspects = true then
    (.exitedWith 0, [])
  else if args.aspect = "custom" ∧ (args.width = none ∨ args.height = none) then
    (.exitedWith 1, [])
  else if args.aspect = "custom" ∧
      (args.width.getD 0 ≤ 0 ∨ args.height.getD 0 ≤ 0) then
    (.exitedWith 1, [])
  else if fileExistsAt args.input_pdf = false then
    (.exitedWith 1, [])
  else
    let output_path := args.output.getD (with_suffix_pptx args.input_pdf)
    let conv :=
      if args.simple then
        pdf_to_pptx_simple (fileExistsAt args.input_pdf) render tempDir
          output_path (some 300) numPages
      else
        pdf_to_pptx (fileExistsAt args.input_pdf) render tempDir output_path
          args.aspect args.width args.height args.quality args.dpi numPages
    match conv.1 with
    | .raised e => (.raised e, conv.2)
    | .notFound => (.exitedWith 1, conv.2)
    | .ok _ => (.exitedWith 0, conv.2)

/-! ## Lemmas about the page loop -/

theorem runPages_all_ok (render : RenderOracle) (td : String) (w h : ℚ)
    (d : Option ℤ) (count : ℕ) :
    ∀ start : ℕ,
      (∀ j, j < count → ∃ pix, render (start + j) = Except.ok pix) →
      (runPages render td w h d start count).1 =
        (List.range count).map
          (fun j => ⟨⟨slide_path td (start + j), 0, 0, w, h⟩⟩) ∧
      (runPages render td w h d start count).2.2 = none := by
  induction count with
  | zero => intro start _; simp [runPages]
  | succ c ih =>
    intro start hok
    obtain ⟨pix, hpix⟩ := hok 0 c.succ_pos
    rw [Nat.add_zero] at hpix
    have hrest := ih (start + 1) (fun j hj => by
      have h1 := hok (j + 1) (Nat.succ_lt_succ hj)
      rwa [show start + (j + 1) = start + 1 + j by omega] at h1)
    refine ⟨?_, ?_⟩
    · simp only [runPages, hpix, List.range_succ_eq_map, List.map_cons,
        List.map_map]
      refine congrArg₂ _ (by rw [Nat.add_zero]) ?_
      rw [hrest.1]
      exact List.map_congr_left fun j _ => by
        simp [Function.comp, show start + 1 + j = start + (j + 1) by omega]
    · simp only [runPages, hpix]
      exact hrest.2

theorem runPages_first_error (render : RenderOracle) (td : String) (w h : ℚ)
    (d : Option ℤ) (i : ℕ) :
    ∀ (count start : ℕ) (e : String), i < count →
      render (start + i) = Except.error e →
      (∀ j, j < i → ∃ pix, render (start + j) = Except.ok pix) →
      (runPages render td w h d start count).2.2 = some e := by
  induction i with
  | zero =>
    intro count start e hic hfail _
    cases count with
    | zero => exact absurd hic (Nat.lt_irrefl 0)
    | succ c =>
      rw [Nat.add_zero] at hfail
      simp [runPages, hfail]
  | succ i ih =>
    intro count start e hic hfail hok
    cases count with
    | zero => exact absurd hic (Nat.not_lt_zero _)
    | succ c =>
      obtain ⟨pix, hpix⟩ := hok 0 i.succ_pos
      rw [Nat.add_zero] at hpix
      simp only [runPages, hpix]
      refine ih c (start + 1) e (Nat.succ_lt_succ_iff.mp hic) ?_ ?_
      · rwa [show start + 1 + i = start + (i + 1) by omega]
      · intro j hj
        have h1 := hok (j + 1) (Nat.succ_lt_succ hj)
        rwa [show start + (j + 1) = start + 1 + j by omega] at h1

theorem runPages_events_shape (render : RenderOracle) (td : String) (w h : ℚ)
    (d : Option ℤ) (count : ℕ) :
    ∀ (start : ℕ) (ev : Event),
      ev ∈ (runPages render td w h d start count).2.1 →
      (∃ idx, ev = Event.renderPage idx d) ∨
      (∃ idx dims, ev = Event.writeImage (slide_path td idx) dims) := by
  induction count with
  | zero => intro start ev hev; simp [runPages] at hev
  | succ c ih =>
    intro start ev hev
    simp only [runPages] at hev
    cases hr : render start with
    | error e =>
      rw [hr] at hev
      simp only [List.mem_singleton] at hev
      exact Or.inl ⟨start, hev⟩
    | ok pix =>
      rw [hr] at hev
      simp only [List.mem_cons] at hev
      rcases hev with h1 | h2 | h3
      · exact Or.inl ⟨start, h1⟩
      · exact Or.inr ⟨start, resize_dims pix.width pix.height, h2⟩
      · exact ih (start + 1) ev h3

/-! ## Concrete oracles used by witnesses and counterexamples -/

/-- A rasterizer that throws on 0-based page index 2 (1-based page 3) and
succeeds on every other page. -/
def renderFailAt2 : RenderOracle := fun i =>
  if i = 2 then Except.error "boom" else Except.ok ⟨100, 100⟩

/-- A rasterizer that succeeds on every page with a 200×100 raster. -/
def renderOkConst : RenderOracle := fun _ => Except.ok ⟨200, 100⟩

/-! ## Claim theorems -/

/-- C2: for every valid PDF with `n` pages where no page's rasterization
fails, the output presentation contains exactly `n` slides, in source page
order (slide `k` carries page `k`'s intermediate image), and every slide
holds exactly one image placed at offset `(0, 0)` with width and height equal
to the canvas width and height resolved by `get_slide_dimensions`, regardless
of the raster's own dimensions (the render oracle is arbitrary). -/
theorem conversion_success_slide_invariants (render : RenderOracle)
    (td op a : String) (cw chh : Option ℚ) (q : String) (d : Option ℤ)
    (n : ℕ) (hok : ∀ i, i < n → ∃ pix, render i = Except.ok pix) :
    ∃ out, (pdf_to_pptx true render td op a cw chh q d n).1 =
        ConvResult.ok out ∧
      out.slideWidth = (get_slide_dimensions a cw chh).1 ∧
      out.slideHeight = (get_slide_dimensions a cw chh).2 ∧
      out.slides.length = n ∧
      ∀ k, k < n → out.slides.getD k ⟨⟨"", 0, 0, 0, 0⟩⟩ =
        ⟨⟨slide_path td k, 0, 0, (get_slide_dimensions a cw chh).1,
          (get_slide_dimensions a cw chh).2⟩⟩ := by
  have hok' : ∀ j, j < n → ∃ pix, render (0 + j) = Except.ok pix := by
    intro j hj; simpa using hok j hj
  have h := runPages_all_ok render td (get_slide_dimensions a cw chh).1
    (get_slide_dimensions a cw chh).2 (resolve_dpi d q) n 0 hok'
  simp only [Nat.zero_add] at h
  refine ⟨⟨(get_slide_dimensions a cw chh).1, (get_slide_dimensions a cw chh).2,
    (List.range n).map (fun j => ⟨⟨slide_path td j, 0, 0,
      (get_slide_dimensions a cw chh).1, (get_slide_dimensions a cw chh).2⟩⟩)⟩,
    ?_, rfl, rfl, by simp, ?_⟩
  · simp [pdf_to_pptx, h.2, h.1]
  · intro k hk
    have hlen : k < ((List.range n).map
        (fun j => (⟨⟨slide_path td j, 0, 0, (get_slide_dimensions a cw chh).1,
          (get_slide_dimensions a cw chh).2⟩⟩ : Slide))).length := by
      simpa using hk
    rw [List.getD_eq_getElem _ _ hlen]
    simp

/-- C2 witness: a 3-page conversion with an always-succeeding rasterizer. -/
theorem conversion_success_slide_invariants_witness :
    (∀ i, i < 3 → ∃ pix, renderOkConst i = Except.ok pix) ∧
    ∃ out, (pdf_to_pptx true renderOkConst "/scratch" "out.pptx" "16:9" none
        none "high" none 3).1 = ConvResult.ok out ∧
      out.slideWidth = (get_slide_dimensions "16:9" none none).1 ∧
      out.slideHeight = (get_slide_dimensions "16:9" none none).2 ∧
      out.slides.length = 3 ∧
      ∀ k, k < 3 → out.slides.getD k ⟨⟨"", 0, 0, 0, 0⟩⟩ =
        ⟨⟨slide_path "/scratch" k, 0, 0, (get_slide_dimensions "16:9" none none).1,
          (get_slide_dimensions "16:9" none none).2⟩⟩ :=
  ⟨fun _ _ => ⟨⟨200, 100⟩, rfl⟩,
   conversion_success_slide_invariants renderOkConst "/scratch" "out.pptx"
     "16:9" none none "high" none 3 (fun _ _ => ⟨⟨200, 100⟩, rfl⟩)⟩

/-- C1 counterexample: in a 5-page PDF whose page index 2 fails to
rasterize, `pdf_to_pptx` does not produce a 4-slide success — the exception
propagates uncaught and the run returns no presentation at all. -/
theorem page_failure_counterexample :
    (pdf_to_pptx true renderFailAt2 "/scratch" "out.pptx" "4:3" none none
      "high" (some 300) 5).1 = ConvResult.raised "boom" ∧
    ∀ out : ConversionOutput,
      (pdf_to_pptx true renderFailAt2 "/scratch" "out.pptx" "4:3" none none
        "high" (some 300) 5).1 ≠ ConvResult.ok out := by
  have h : (pdf_to_pptx true renderFailAt2 "/scratch" "out.pptx" "4:3" none
      none "high" (some 300) 5).1 = ConvResult.raised "boom" := rfl
  exact ⟨h, fun out hc => by rw [h] at hc; exact ConvResult.noConfusion hc⟩

/-- C1 amended: if rasterization of some page throws inside the page loop of
`pdf_to_pptx`, the exception is NOT caught there: it propagates out of the
conversion, which therefore saves no presentation file and reports no
success.  (The catch/log/skip behavior the claim describes exists only in
the helper `convert_pdf_to_png`, which `pdf_to_pptx` never calls.) -/
theorem page_failure_propagates (fe : Bool) (render : RenderOracle)
    (td op a : String) (cw chh : Option ℚ) (q : String) (d : Option ℤ)
    (n i : ℕ) (e : String) (hfe : fe = true) (hi : i < n)
    (hfail : render i = Except.error e)
    (hok : ∀ j, j < i → ∃ pix, render j = Except.ok pix) :
    (pdf_to_pptx fe render td op a cw chh q d n).1 = ConvResult.raised e ∧
    ∀ p, Event.savePresentation p ∉
      (pdf_to_pptx fe render td op a cw chh q d n).2 := by
  subst hfe
  have herr := runPages_first_error render td (get_slide_dimensions a cw chh).1
    (get_slide_dimensions a cw chh).2 (resolve_dpi d q) i n 0 e hi
    (by simpa using hfail) (fun j hj => by simpa using hok j hj)
  constructor
  · simp [pdf_to_pptx, herr]
  · intro p hp
    simp [pdf_to_pptx, herr] at hp
    rcases runPages_events_shape render td (get_slide_dimensions a cw chh).1
      (get_slide_dimensions a cw chh).2 (resolve_dpi d q) n 0 _ hp with
      ⟨idx, hr⟩ | ⟨idx, dims, hw⟩
    · exact Event.noConfusion hr
    · exact Event.noConfusion hw

/-- C1 amended witness: the failing page index 2 of a 5-page PDF. -/
theorem page_failure_propagates_witness :
    (true = true) ∧ (2 < 5) ∧ renderFailAt2 2 = Except.error "boom" ∧
    ((pdf_to_pptx true renderFailAt2 "/scratch" "out.pptx" "4:3" none none
        "high" (some 300) 5).1 = ConvResult.raised "boom" ∧
      ∀ p, Event.savePresentation p ∉
        (pdf_to_pptx true renderFailAt2 "/scratch" "out.pptx" "4:3" none none
          "high" (some 300) 5).2) :=
  ⟨rfl, by omega, rfl,
   page_failure_propagates true renderFailAt2 "/scratch" "out.pptx" "4:3"
     none none "high" (some 300) 5 2 "boom" rfl (by omega) rfl
     (fun j hj => ⟨⟨100, 100⟩, by
       unfold renderFailAt2
       rw [if_neg (by omega)]⟩)⟩

/-- C8: whenever the conversion proceeds past the input check, the scratch
directory is created at the start, every intermediate image is written under
it (at a `slide-i.png` path inside it), and it is removed as the very last
event on every exit path — for every render oracle, hence both on normal
completion and when a page exception propagates. -/
theorem scratch_dir_lifecycle (fe : Bool) (render : RenderOracle)
    (td op a : String) (cw chh : Option ℚ) (q : String) (d : Option ℤ)
    (n : ℕ) (hfe : fe = true) :
    ∃ body, (pdf_to_pptx fe render td op a cw chh q d n).2 =
        Event.createTempDir td :: body ++ [Event.removeTempDir td] ∧
      ∀ p dims, Event.writeImage p dims ∈ body → ∃ i, p = slide_path td i := by
  subst hfe
  cases herr : (runPages render td (get_slide_dimensions a cw chh).1
      (get_slide_dimensions a cw chh).2 (resolve_dpi d q) 0 n).2.2 with
  | none =>
    refine ⟨(runPages render td (get_slide_dimensions a cw chh).1
        (get_slide_dimensions a cw chh).2 (resolve_dpi d q) 0 n).2.1 ++
        [Event.savePresentation op], ?_, ?_⟩
    · simp [pdf_to_pptx, herr]
    · intro p dims hp
      rcases List.mem_append.mp hp with h1 | h2
      · rcases runPages_events_shape render td (get_slide_dimensions a cw chh).1
          (get_slide_dimensions a cw chh).2 (resolve_dpi d q) n 0 _ h1 with
          ⟨idx, hr⟩ | ⟨idx, dims', hw⟩
        · exact Event.noConfusion hr
        · injection hw with hw1 hw2
          exact ⟨idx, hw1⟩
      · rw [List.mem_singleton] at h2
        exact Event.noConfusion h2
  | some e =>
    refine ⟨(runPages render td (get_slide_dimensions a cw chh).1
        (get_slide_dimensions a cw chh).2 (resolve_dpi d q) 0 n).2.1, ?_, ?_⟩
    · simp [pdf_to_pptx, herr]
    · intro p dims hp
      rcases runPages_events_shape render td (get_slide_dimensions a cw chh).1
        (get_slide_dimensions a cw chh).2 (resolve_dpi d q) n 0 _ hp with
        ⟨idx, hr⟩ | ⟨idx, dims', hw⟩
      · exact Event.noConfusion hr
      · injection hw with hw1 hw2
        exact ⟨idx, hw1⟩

/-- C8 witness: the failing-oracle run still has the
create-…-remove trace shape. -/
theorem scratch_dir_lifecycle_witness :
    (true = true) ∧
    ∃ body, (pdf_to_pptx true renderFailAt2 "/tmp/work" "o.pptx" "a4" none
        none "low" none 4).2 =
        Event.createTempDir "/tmp/work" :: body ++
          [Event.removeTempDir "/tmp/work"] ∧
      ∀ p dims, Event.writeImage p dims ∈ body →
        ∃ i, p = slide_path "/tmp/work" i :=
  ⟨rfl, scratch_dir_lifecycle true renderFailAt2 "/tmp/work" "o.pptx" "a4"
    none none "low" none 4 rfl⟩

/-- C3 counterexample: the silent fallback for an unknown aspect keyword is
`(10.0, 7.5)`, not the `(9.0, 7.5)` the claim states. -/
theorem aspect_fallback_counterexample :
    get_slide_dimensions "ultrawide" none none = (10.0, 7.5) ∧
    get_slide_dimensions "ultrawide" none none ≠ ((9.0 : ℚ), (7.5 : ℚ)) := by
  have h : get_slide_dimensions "ultrawide" none none = (10.0, 7.5) := by
    simp [get_slide_dimensions, ratiosLookup, ratios, truthy, List.find?]
  refine ⟨h, ?_⟩
  rw [h]
  intro hc
  have := congrArg Prod.fst hc
  norm_num at this

/-- C3 amended: every aspect keyword outside the table (other than
`"custom"`, which has its own branch) silently falls back to the 4:3 default
`(10.0, 7.5)` — no error — and every keyword in the table returns its fixed
`(width, height)` pair, independent of the custom arguments. -/
theorem aspect_table_and_default (k : String) (cw chh : Option ℚ)
    (hk : ratiosLookup k = none) (hkc : k ≠ "custom") :
    get_slide_dimensions k cw chh = (10.0, 7.5) ∧
    ∀ k' v, (k', v) ∈ ratios → ∀ cw' chh' : Option ℚ,
      get_slide_dimensions k' cw' chh' = v := by
  constructor
  · simp [get_slide_dimensions, hk, hkc]
  · intro k' v hv cw' chh'
    simp only [ratios, List.mem_cons, List.not_mem_nil, or_false,
      Prod.mk.injEq] at hv
    rcases hv with hkv | hkv | hkv | hkv | hkv | hkv | hkv | hkv | hkv <;>
      obtain ⟨rfl, rfl⟩ := hkv <;>
      simp [get_slide_dimensions, ratiosLookup, ratios, truthy, List.find?]

/-- C3 amended witness: the unknown keyword `"banner"`. -/
theorem aspect_table_and_default_witness :
    ratiosLookup "banner" = none ∧ "banner" ≠ "custom" ∧
    (get_slide_dimensions "banner" none none = (10.0, 7.5) ∧
      ∀ k' v, (k', v) ∈ ratios → ∀ cw' chh' : Option ℚ,
        get_slide_dimensions k' cw' chh' = v) :=
  ⟨rfl, by decide, aspect_table_and_default "banner" none none rfl (by decide)⟩

/-- C4: with no explicit DPI the effective rendering DPI is the quality
tier's preset (low=150, medium=300, high=600, ultra=1200), an explicit DPI
always overrides the tier, and every rasterization call `pdf_to_pptx`
performs uses exactly `resolve_dpi dpi quality`. -/
theorem effective_dpi_resolution :
    resolve_dpi none "low" = some 150 ∧ resolve_dpi none "medium" = some 300 ∧
    resolve_dpi none "high" = some 600 ∧ resolve_dpi none "ultra" = some 1200 ∧
    (∀ (dexp : ℤ) (q : String), resolve_dpi (some dexp) q = some dexp) ∧
    ∀ (fe : Bool) (render : RenderOracle) (td op a : String)
      (cw chh : Option ℚ) (q : String) (d : Option ℤ) (n idx : ℕ)
      (dp : Option ℤ),
      Event.renderPage idx dp ∈ (pdf_to_pptx fe render td op a cw chh q d n).2 →
      dp = resolve_dpi d q := by
  refine ⟨rfl, rfl, rfl, rfl, fun _ _ => rfl, ?_⟩
  intro fe render td op a cw chh q d n idx dp hmem
  cases fe with
  | false => simp [pdf_to_pptx] at hmem
  | true =>
    cases herr : (runPages render td (get_slide_dimensions a cw chh).1
        (get_slide_dimensions a cw chh).2 (resolve_dpi d q) 0 n).2.2 with
    | some e =>
      simp [pdf_to_pptx, herr] at hmem
      rcases runPages_events_shape render td (get_slide_dimensions a cw chh).1
        (get_slide_dimensions a cw chh).2 (resolve_dpi d q) n 0 _ hmem with
        ⟨i2, hr⟩ | ⟨i2, dims, hw⟩
      · injection hr with h1 h2
      · exact Event.noConfusion hw
    | none =>
      simp [pdf_to_pptx, herr] at hmem
      rcases runPages_events_shape render td (get_slide_dimensions a cw chh).1
        (get_slide_dimensions a cw chh).2 (resolve_dpi d q) n 0 _ hmem with
        ⟨i2, hr⟩ | ⟨i2, dims, hw⟩
      · injection hr with h1 h2
      · exact Event.noConfusion hw

/-- C4 witness: quality `"low"` with no explicit DPI renders page 0 at DPI
150. -/
theorem effective_dpi_resolution_witness :
    Event.renderPage 0 (some 150) ∈ (pdf_to_pptx true renderOkConst "/scratch"
      "o.pptx" "4:3" none none "low" none 1).2 ∧
    (some 150 : Option ℤ) = resolve_dpi none "low" := by
  have htr : (pdf_to_pptx true renderOkConst "/scratch" "o.pptx" "4:3" none
      none "low" none 1).2 =
      [Event.createTempDir "/scratch", Event.renderPage 0 (some 150),
       Event.writeImage (slide_path "/scratch" 0) (resize_dims 200 100),
       Event.savePresentation "o.pptx", Event.removeTempDir "/scratch"] := rfl
  have hmem : Event.renderPage 0 (some 150) ∈ (pdf_to_pptx true renderOkConst
      "/scratch" "o.pptx" "4:3" none none "low" none 1).2 := by
    rw [htr]
    exact List.mem_cons_of_mem _ (List.mem_cons_self _ _)
  exact ⟨hmem, effective_dpi_resolution.2.2.2.2.2 true renderOkConst
    "/scratch" "o.pptx" "4:3" none none "low" none 1 0 (some 150) hmem⟩

/-- C5: with aspect `"custom"` and a missing width or height, or a
non-positive width or height, `main` exits with status 1 before any
processing: no file-system event happens, in particular no output file is
produced. -/
theorem custom_validation_exits_early (fs : String → Bool)
    (render : RenderOracle) (td : String) (np : ℕ) (args : Args)
    (hla : args.list_aspects = false)
    (hc : args.aspect = "custom")
    (hbad : args.width = none ∨ args.height = none ∨
      args.width.getD 0 ≤ 0 ∨ args.height.getD 0 ≤ 0) :
    (runMain fs render td np args).1 = MainOutcome.exitedWith 1 ∧
    (runMain fs render td np args).2 = [] := by
  by_cases hn : args.width = none ∨ args.height = none
  · constructor <;> simp [runMain, hla, hc, hn]
  · have hle : args.width.getD 0 ≤ 0 ∨ args.height.getD 0 ≤ 0 := by tauto
    rcases hle with h | h <;> constructor <;> simp [runMain, hla, hc, hn, h]

/-- The parsed arguments of an invocation
`prog in.pdf --aspect custom --height 5`: width missing. -/
def argsCustomMissingWidth : Args :=
  ⟨"in.pdf", none, "custom", none, some 5, "high", none, false, false⟩

/-- C5 witness: aspect `"custom"` with `--width` missing exits 1 with an
empty event trace. -/
theorem custom_validation_exits_early_witness :
    argsCustomMissingWidth.list_aspects = false ∧
    argsCustomMissingWidth.aspect = "custom" ∧
    (argsCustomMissingWidth.width = none ∨
      argsCustomMissingWidth.height = none ∨
      argsCustomMissingWidth.width.getD 0 ≤ 0 ∨
      argsCustomMissingWidth.height.getD 0 ≤ 0) ∧
    ((runMain (fun _ => true) renderOkConst "/s" 1 argsCustomMissingWidth).1 =
        MainOutcome.exitedWith 1 ∧
      (runMain (fun _ => true) renderOkConst "/s" 1 argsCustomMissingWidth).2 =
        []) :=
  ⟨rfl, rfl, Or.inl rfl,
   custom_validation_exits_early (fun _ => true) renderOkConst "/s" 1
     argsCustomMissingWidth rfl rfl (Or.inl rfl)⟩

/-- C6 counterexample: for a 2×3 raster, the exact scaled width is
2·(1024/3) = 682.666…; nearest-integer rounding gives 683, but the code's
`int(...)` truncation gives 682. -/
theorem resize_rounding_counterexample :
    (resize_dims 2 3).1 = 682 ∧
    round ((2 : ℚ) * ((1024 : ℚ) / (3 : ℚ))) = 683 ∧
    (resize_dims 2 3).1 ≠ round ((2 : ℚ) * ((1024 : ℚ) / (3 : ℚ))) := by
  have h1 : (resize_dims 2 3).1 = 682 := by norm_num [resize_dims, pyTrunc]
  have h2 : round ((2 : ℚ) * ((1024 : ℚ) / (3 : ℚ))) = 683 := by
    rw [round_eq]
    norm_num
  exact ⟨h1, h2, by rw [h1, h2]; decide⟩

/-- C6 amended: the per-page resize targets height exactly 1024 and a width
that is the truncation (floor) of the raster's own width scaled by
1024/height — the greatest integer not exceeding the exact scaled width,
computed from the raster's own dimensions, not the canvas's — rather than
the nearest-integer rounding. -/
theorem resize_dims_floor (w h : ℕ) (hh : 0 < h) :
    (resize_dims w h).2 = 1024 ∧
    ((resize_dims w h).1 : ℚ) ≤ (w : ℚ) * ((1024 : ℚ) / (h : ℚ)) ∧
    (w : ℚ) * ((1024 : ℚ) / (h : ℚ)) < ((resize_dims w h).1 : ℚ) + 1 := by
  have hq : (0 : ℚ) ≤ (w : ℚ) * ((1024 : ℚ) / (h : ℚ)) := by positivity
  have he : resize_dims w h =
      (pyTrunc ((w : ℚ) * ((1024 : ℚ) / (h : ℚ))), 1024) := by
    simp only [resize_dims]
    norm_num
  rw [he]
  refine ⟨rfl, ?_, ?_⟩
  · simp only [pyTrunc, if_pos hq]
    exact Int.floor_le _
  · simp only [pyTrunc, if_pos hq]
    exact Int.lt_floor_add_one _

/-- C6 amended witness: a 5×4 raster resizes to width ⌊5·1024/4⌋ = 1280. -/
theorem resize_dims_floor_witness :
    (0 < 4) ∧ ((resize_dims 5 4).2 = 1024 ∧
      ((resize_dims 5 4).1 : ℚ) ≤ (5 : ℚ) * ((1024 : ℚ) / (4 : ℚ)) ∧
      (5 : ℚ) * ((1024 : ℚ) / (4 : ℚ)) < ((resize_dims 5 4).1 : ℚ) + 1) :=
  ⟨by decide, resize_dims_floor 5 4 (by decide)⟩

/-- C7: with `--list-aspects`, `main` exits 0 having performed no
file-system event at all — in particular the input-file existence check has
not run, so the outcome is the same for every file-system oracle, including
one where the input PDF does not exist. -/
theorem list_aspects_exits_zero (fs : String → Bool) (render : RenderOracle)
    (td : String) (np : ℕ) (args : Args)
    (hla : args.list_aspects = true) :
    (runMain fs render td np args).1 = MainOutcome.exitedWith 0 ∧
    (runMain fs render td np args).2 = [] := by
  constructor <;> simp [runMain, hla]

/-- The parsed arguments of `prog missing.pdf --list-aspects`. -/
def argsListAspects : Args :=
  ⟨"missing.pdf", none, "4:3", none, none, "high", none, false, true⟩

/-- C7 witness: `--list-aspects` with a file-system where no path exists
still exits 0 with an empty trace. -/
theorem list_aspects_exits_zero_witness :
    argsListAspects.list_aspects = true ∧
    ((runMain (fun _ => false) renderOkConst "/s" 0 argsListAspects).1 =
        MainOutcome.exitedWith 0 ∧
      (runMain (fun _ => false) renderOkConst "/s" 0 argsListAspects).2 = []) :=
  ⟨rfl, list_aspects_exits_zero (fun _ => false) renderOkConst "/s" 0
    argsListAspects rfl⟩

/-- C9: calling `get_slide_dimensions` with `"custom"` and a falsy custom
width or height (Python `None` or `0`) does not raise and does not return the
custom values: the custom branch requires both values truthy, the keyword
`"custom"` is not in the table, and the 4:3 default `(10.0, 7.5)` is
returned. -/
theorem custom_falsy_defaults (cw chh : Option ℚ)
    (h : truthy cw = false ∨ truthy chh = false) :
    get_slide_dimensions "custom" cw chh = (10.0, 7.5) := by
  rcases h with h | h <;>
    simp [get_slide_dimensions, ratiosLookup, ratios, List.find?, h]

/-- C9 witness: `custom_width = None` (with a truthy height). -/
theorem custom_falsy_defaults_witness :
    (truthy none = false ∨ truthy (some 5) = false) ∧
    get_slide_dimensions "custom" none (some 5) = (10.0, 7.5) :=
  ⟨Or.inl rfl, custom_falsy_defaults none (some 5) (Or.inl rfl)⟩

/-- C10: for every outcome of the fallible external steps, the two PNG
helper functions return (they are total in the model: the `try` block spans
every fallible step, so no exception propagates), and the returned value is
either the path `<output_dir>/slide-<page_num>.png` or `None`. -/
theorem png_helpers_never_propagate (s : PngSteps) (s2 : HqPngSteps)
    (dir : String) (pn : ℕ) (flag : Bool) :
    ((convert_pdf_to_png s dir pn).1 =
        some (dir ++ "/slide-" ++ toString pn ++ ".png") ∨
      (convert_pdf_to_png s dir pn).1 = none) ∧
    ((convert_pdf_to_high_quality_png s2 dir pn flag).1 =
        some (dir ++ "/slide-" ++ toString pn ++ ".png") ∨
      (convert_pdf_to_high_quality_png s2 dir pn flag).1 = none) := by
  constructor
  · simp only [convert_pdf_to_png]
    split
    · exact Or.inl rfl
    · exact Or.inr rfl
  · simp only [convert_pdf_to_high_quality_png]
    split
    · exact Or.inl rfl
    · exact Or.inr rfl

end Pdf2Pptx
